import Mathlib

/-!
Verification of the TDP-43 splice-junction ETL pipeline
(`filter_junction.py` plus the top-level script block).

The pipeline's tables are embedded as Lean lists of typed rows; each stage
of the Python source becomes an executable Lean function on those lists.
Fallible I/O steps (zip extraction, parquet/CSV reads, column access by the
join/filter/aggregation engines) are modelled with `Except String`, with the
outcome of each external read supplied as an input, since file contents are
outside a shallow embedding.  The orchestration (`process_data` and the
script's trailing write block) is translated control-flow point by
control-flow point, including the intermediate CSV write inside
`filter_joined` and the cleanup loop.
-/

/-- A row of the measurement (parquet) table.  The source consumes the
columns `junction_coords` (key of the first join) and `sample_name`
(key of the second join). -/
structure MeasurementRow where
  junction_coords : String
  sample_name : String
deriving DecidableEq, Repr

/-- A row of the splice-event classification CSV: `junc_cat` and the
`junction_coords` join key. -/
structure SpliceRow where
  junc_cat : String
  junction_coords : String
deriving DecidableEq, Repr

/-- A row of the sample-metadata CSV. -/
structure MetadataRow where
  sample_name : String
  genotype : String
  TDP43_kd : String
  rescueExpression : String
deriving DecidableEq, Repr

/-- A row of the intermediate table produced by the first join
(measurements ⋈ filtered splice events on `junction_coords`). -/
structure SpliceJoinedRow where
  junction_coords : String
  sample_name : String
  junc_cat : String
deriving DecidableEq, Repr

/-- A row of the final joined table.  The metadata-derived columns are
`Option`-valued because the second `pyarrow.Table.join` call in
`join_datasets` does not pass `join_type` and the engine's default is
`"left outer"`, which fills unmatched rows with nulls. -/
structure JoinedRow where
  junction_coords : String
  sample_name : String
  junc_cat : String
  genotype : Option String
  TDP43_kd : Option String
  rescueExpression : Option String
deriving DecidableEq, Repr

/-- The allow-list of cryptic junction categories from `filter_splice`
(`options = ['novel_acceptor','novel_exon_skip','novel_donor']`). -/
def options : List String := ["novel_acceptor", "novel_exon_skip", "novel_donor"]

/-- `filter_splice`: keep exactly the classification rows whose `junc_cat`
is in `options` (`splice_df.loc[splice_df['junc_cat'].isin(options)]`). -/
def filter_splice (rows : List SpliceRow) : List SpliceRow :=
  rows.filter (fun r => options.contains r.junc_cat)

/-- First half of `join_datasets`: inner equality join of the measurement
table with the filtered splice events on `junction_coords`
(`parquet_table.join(ds2, keys="junction_coords", join_type="inner")`). -/
def joinSplice (meas : List MeasurementRow) (events : List SpliceRow) :
    List SpliceJoinedRow :=
  meas.flatMap (fun m =>
    (events.filter (fun e => e.junction_coords == m.junction_coords)).map
      (fun e => ⟨m.junction_coords, m.sample_name, e.junc_cat⟩))

/-- Second half of `join_datasets`: join with the metadata table on
`sample_name` (`splice_joined_ds.join(ds3, keys="sample_name")`).  No
`join_type` is passed, so the `pyarrow` default `"left outer"` applies:
every left row is kept, and left rows without a metadata match get null
metadata columns. -/
def joinMetadata (left : List SpliceJoinedRow) (md : List MetadataRow) :
    List JoinedRow :=
  left.flatMap (fun l =>
    let ms := md.filter (fun x => x.sample_name == l.sample_name)
    if ms.isEmpty then
      [⟨l.junction_coords, l.sample_name, l.junc_cat, none, none, none⟩]
    else
      ms.map (fun x =>
        ⟨l.junction_coords, l.sample_name, l.junc_cat,
          some x.genotype, some x.TDP43_kd, some x.rescueExpression⟩))

/-- `join_datasets`: the two sequential joins. -/
def join_datasets (meas : List MeasurementRow) (events : List SpliceRow)
    (md : List MetadataRow) : List JoinedRow :=
  joinMetadata (joinSplice meas events) md

/-- First filter of `filter_joined`:
`joined_df.filter(pc.equal(joined_df["TDP43_kd"], "siTDP43"))`.
`pc.equal` on a null entry yields null and `Table.filter` drops null mask
entries, so only rows whose `TDP43_kd` is present and equal pass. -/
def filterKd (rows : List JoinedRow) : List JoinedRow :=
  rows.filter (fun r => r.TDP43_kd == some "siTDP43")

/-- Second filter of `filter_joined`:
`filtered_df.filter(pc.equal(filtered_df["rescueExpression"], "rescueInduced"))`. -/
def filterRescue (rows : List JoinedRow) : List JoinedRow :=
  rows.filter (fun r => r.rescueExpression == some "rescueInduced")

/-- `filter_joined` as a pure table transformation: the two sequential
predicate filters (the intermediate write is modelled in the orchestration
below). -/
def filter_joined (rows : List JoinedRow) : List JoinedRow :=
  filterRescue (filterKd rows)

/-- The one-pass conjunction filter the spec compares `filter_joined`
against: keep rows satisfying both predicates at once. -/
def filterBoth (rows : List JoinedRow) : List JoinedRow :=
  rows.filter (fun r =>
    r.TDP43_kd == some "siTDP43" && r.rescueExpression == some "rescueInduced")

/-- Membership in the first (inner) join: a row is produced exactly by a
measurement row and an event row agreeing on `junction_coords`. -/
theorem mem_joinSplice {meas : List MeasurementRow} {events : List SpliceRow}
    {l : SpliceJoinedRow} :
    l ∈ joinSplice meas events ↔
      ∃ m ∈ meas, ∃ e ∈ events, e.junction_coords = m.junction_coords ∧
        l = ⟨m.junction_coords, m.sample_name, e.junc_cat⟩ := by
  simp only [joinSplice, List.mem_flatMap, List.mem_map, List.mem_filter,
    beq_iff_eq]
  constructor
  · rintro ⟨m, hm, e, ⟨he, hkey⟩, rfl⟩
    exact ⟨m, hm, e, he, hkey, rfl⟩
  · rintro ⟨m, hm, e, he, hkey, rfl⟩
    exact ⟨m, hm, e, ⟨he, hkey⟩, rfl⟩

/-- Origin of a row of the second (left-outer) join: it comes from a left
row, and its metadata columns are either all filled from one matching
metadata row or all null when no metadata row matches. -/
theorem joinMetadata_mem {left : List SpliceJoinedRow} {md : List MetadataRow}
    {r : JoinedRow} (h : r ∈ joinMetadata left md) :
    ∃ l ∈ left, r.junction_coords = l.junction_coords ∧
      r.sample_name = l.sample_name ∧ r.junc_cat = l.junc_cat ∧
      ((∃ x ∈ md, x.sample_name = l.sample_name ∧
          r.genotype = some x.genotype ∧ r.TDP43_kd = some x.TDP43_kd ∧
          r.rescueExpression = some x.rescueExpression) ∨
        ((∀ x ∈ md, x.sample_name ≠ l.sample_name) ∧
          r.genotype = none ∧ r.TDP43_kd = none ∧ r.rescueExpression = none)) := by
  simp only [joinMetadata, List.mem_flatMap] at h
  obtain ⟨l, hl, hr⟩ := h
  refine ⟨l, hl, ?_⟩
  by_cases hempty : (md.filter (fun x => x.sample_name == l.sample_name)).isEmpty
  · rw [if_pos hempty] at hr
    simp only [List.mem_singleton] at hr
    subst hr
    refine ⟨rfl, rfl, rfl, Or.inr ⟨?_, rfl, rfl, rfl⟩⟩
    intro x hx hsn
    have : x ∈ md.filter (fun x => x.sample_name == l.sample_name) := by
      simp [List.mem_filter, hx, hsn]
    rw [List.isEmpty_iff] at hempty
    simp [hempty] at this
  · rw [if_neg hempty] at hr
    simp only [List.mem_map, List.mem_filter, beq_iff_eq] at hr
    obtain ⟨x, ⟨hx, hsn⟩, rfl⟩ := hr
    exact ⟨rfl, rfl, rfl, Or.inl ⟨x, hx, hsn, rfl, rfl, rfl⟩⟩

/-- Retention in the second (left-outer) join: every left row yields at
least one output row with the same key fields, matched or not. -/
theorem joinMetadata_retains {left : List SpliceJoinedRow} {md : List MetadataRow}
    {l : SpliceJoinedRow} (h : l ∈ left) :
    ∃ r ∈ joinMetadata left md, r.junction_coords = l.junction_coords ∧
      r.sample_name = l.sample_name ∧ r.junc_cat = l.junc_cat := by
  by_cases hempty : (md.filter (fun x => x.sample_name == l.sample_name)).isEmpty
  · refine ⟨⟨l.junction_coords, l.sample_name, l.junc_cat, none, none, none⟩,
      ?_, rfl, rfl, rfl⟩
    simp only [joinMetadata, List.mem_flatMap]
    exact ⟨l, h, by rw [if_pos hempty]; simp⟩
  · obtain ⟨x, hx⟩ : ∃ x, x ∈ md.filter (fun x => x.sample_name == l.sample_name) := by
      cases hfilter : md.filter (fun x => x.sample_name == l.sample_name) with
      | nil => rw [List.isEmpty_iff] at hempty; exact absurd hfilter hempty
      | cons y ys => exact ⟨y, by simp [hfilter]⟩
    refine ⟨⟨l.junction_coords, l.sample_name, l.junc_cat,
      some x.genotype, some x.TDP43_kd, some x.rescueExpression⟩, ?_, rfl, rfl, rfl⟩
    simp only [joinMetadata, List.mem_flatMap]
    refine ⟨l, h, ?_⟩
    rw [if_neg hempty]
    exact List.mem_map.mpr ⟨x, hx, rfl⟩

/-- Counterexample to claim C1 as stated: with one measurement row, one
matching `novel_donor` event and an empty metadata table, the second join
retains the unmatched row with null metadata columns instead of dropping
it, so not every `JoinedTable` row has non-null join-derived columns. -/
theorem C1_counterexample :
    ¬ (∀ r ∈ join_datasets [⟨"chr1:100-200", "s1"⟩]
          [⟨"novel_donor", "chr1:100-200"⟩] ([] : List MetadataRow),
        r.genotype.isSome = true ∧ r.TDP43_kd.isSome = true ∧
          r.rescueExpression.isSome = true) ∧
    join_datasets [⟨"chr1:100-200", "s1"⟩] [⟨"novel_donor", "chr1:100-200"⟩]
        ([] : List MetadataRow) =
      [⟨"chr1:100-200", "s1", "novel_donor", none, none, none⟩] := by
  constructor
  · decide
  · rfl

/-- Claim C1 as amended: the first join is inner (every output row arises
from a measurement row and an event row with equal `junction_coords`, so
`junc_cat` is always present), but the second join is left-outer (the
`pyarrow` default, since `join_datasets` passes no `join_type`): its
metadata-derived columns are non-null exactly when the metadata has a
matching `sample_name`, and every first-join row is retained either way;
metadata rows without a match contribute nothing. -/
theorem C1_amended_join_semantics (meas : List MeasurementRow)
    (events : List SpliceRow) (md : List MetadataRow) :
    (∀ r ∈ join_datasets meas events md,
        (∃ m ∈ meas, ∃ e ∈ events,
            e.junction_coords = m.junction_coords ∧
            r.junction_coords = m.junction_coords ∧
            r.sample_name = m.sample_name ∧ r.junc_cat = e.junc_cat) ∧
        ((∃ x ∈ md, x.sample_name = r.sample_name) →
            r.genotype.isSome = true ∧ r.TDP43_kd.isSome = true ∧
              r.rescueExpression.isSome = true) ∧
        ((∀ x ∈ md, x.sample_name ≠ r.sample_name) →
            r.genotype = none ∧ r.TDP43_kd = none ∧
              r.rescueExpression = none)) ∧
    (∀ l ∈ joinSplice meas events, ∃ r ∈ join_datasets meas events md,
        r.junction_coords = l.junction_coords ∧
        r.sample_name = l.sample_name ∧ r.junc_cat = l.junc_cat) := by
  constructor
  · intro r hr
    obtain ⟨l, hl, hjc, hsn, hcat, hcase⟩ := joinMetadata_mem hr
    obtain ⟨m, hm, e, he, hkey, rfl⟩ := mem_joinSplice.mp hl
    refine ⟨⟨m, hm, e, he, hkey, hjc, hsn, hcat⟩, ?_, ?_⟩
    · rintro ⟨x, hx, hxs⟩
      rcases hcase with ⟨y, _, _, hg, hk, hre⟩ | ⟨hnone, _, _, _⟩
      · simp [hg, hk, hre]
      · exact absurd (hsn ▸ hxs) (hnone x hx)
    · intro hnomatch
      rcases hcase with ⟨y, hy, hys, _, _, _⟩ | ⟨_, hg, hk, hre⟩
      · exact absurd (hys.trans hsn.symm) (hnomatch y hy)
      · exact ⟨hg, hk, hre⟩
  · intro l hl
    exact joinMetadata_retains hl

/-- Witness for the amended C1 at a concrete input: the unmatched joined
row keeps its key fields and its null metadata columns are as described. -/
theorem C1_amended_join_semantics_witness :
    (⟨"chr1:100-200", "s1", "novel_donor", none, none, none⟩ : JoinedRow) ∈
      join_datasets [⟨"chr1:100-200", "s1"⟩] [⟨"novel_donor", "chr1:100-200"⟩]
        ([] : List MetadataRow) ∧
    (∃ m ∈ ([⟨"chr1:100-200", "s1"⟩] : List MeasurementRow),
      ∃ e ∈ ([⟨"novel_donor", "chr1:100-200"⟩] : List SpliceRow),
        e.junction_coords = m.junction_coords ∧
        (⟨"chr1:100-200", "s1", "novel_donor", none, none, none⟩ : JoinedRow).junction_coords = m.junction_coords ∧
        (⟨"chr1:100-200", "s1", "novel_donor", none, none, none⟩ : JoinedRow).sample_name = m.sample_name ∧
        (⟨"chr1:100-200", "s1", "novel_donor", none, none, none⟩ : JoinedRow).junc_cat = e.junc_cat) :=
  ⟨by decide,
    ((C1_amended_join_semantics [⟨"chr1:100-200", "s1"⟩]
        [⟨"novel_donor", "chr1:100-200"⟩] []).1
      ⟨"chr1:100-200", "s1", "novel_donor", none, none, none⟩ (by decide)).1⟩

/-- `load_parquet_files` loop body: Python rebinds `parquet_dataset` on
each iteration (each shard is fully read, then overwritten by the next);
a failing read aborts the whole call, and an empty shard list leaves
`parquet_dataset` unbound, raising a `NameError`.  The accumulator is the
last successfully read table, `none` before the first iteration. -/
def loadLoop :
    Option (List MeasurementRow) → List (Except String (List MeasurementRow)) →
      Except String (List MeasurementRow)
  | none, [] => .error "NameError: name 'parquet_dataset' is not defined"
  | some t, [] => .ok t
  | _, .error e :: _ => .error e
  | _, .ok t :: rest => loadLoop (some t) rest

/-- `load_parquet_files`, over the list of per-shard read outcomes. -/
def load_parquet_files (shards : List (Except String (List MeasurementRow))) :
    Except String (List MeasurementRow) :=
  loadLoop none shards

/-- Helper: once a table has been read, the loop returns the last `ok`
table of the remaining all-ok shards. -/
theorem loadLoop_ok (acc : List MeasurementRow)
    (ts : List (List MeasurementRow)) :
    loadLoop (some acc) (ts.map Except.ok) = .ok (ts.getLastD acc) := by
  induction ts generalizing acc with
  | nil => rfl
  | cons t rest ih =>
    show loadLoop (some t) (rest.map Except.ok) = _
    rw [ih, List.getLastD_cons]

/-- Claim C3: on a non-empty shard list whose reads all succeed,
`load_parquet_files` returns exactly the table of the last shard — the
loop variable is overwritten on each iteration, so every earlier shard's
table is discarded. -/
theorem C3_load_last_shard (ts : List (List MeasurementRow)) (h : ts ≠ []) :
    load_parquet_files (ts.map Except.ok) = .ok (ts.getLast h) := by
  cases ts with
  | nil => exact absurd rfl h
  | cons t rest =>
    show loadLoop none (Except.ok t :: rest.map Except.ok) = _
    rw [show loadLoop none (Except.ok t :: rest.map Except.ok) =
        loadLoop (some t) (rest.map Except.ok) from rfl, loadLoop_ok]
    rw [List.getLast_eq_getLastD]

/-- Witness for C3: with two shards, only the second shard's rows are
returned. -/
theorem C3_load_last_shard_witness :
    load_parquet_files
        [Except.ok [⟨"chr1:1-2", "s1"⟩], Except.ok [⟨"chr2:3-4", "s2"⟩]] =
      .ok [⟨"chr2:3-4", "s2"⟩] :=
  C3_load_last_shard [[⟨"chr1:1-2", "s1"⟩], [⟨"chr2:3-4", "s2"⟩]] (by decide)

/-- A row of the summary table built by `count_joined`. -/
structure SummaryRow where
  genotype : String
  cryptic_count : Nat
  TDP34_kd_associated : Nat
  rescueInduced : Nat
deriving DecidableEq, Repr

/-- The distinct (non-null) genotype values of the joined table: pandas
`groupby('genotype')` forms one group per distinct key and drops null
keys. -/
def genotypes (rows : List JoinedRow) : List String :=
  (rows.filterMap (fun r => r.genotype)).dedup

/-- The summary row `count_joined` computes for one genotype group:
`cryptic_count=('genotype','size')`, `TDP34_kd_associated` counts
`TDP43_kd == 'siTDP43'`, `rescueInduced` counts
`rescueExpression == 'rescueInduced'` within the group. -/
def summaryFor (rows : List JoinedRow) (g : String) : SummaryRow :=
  let grp := rows.filter (fun r => r.genotype == some g)
  ⟨g, grp.length,
    (grp.filter (fun r => r.TDP43_kd == some "siTDP43")).length,
    (grp.filter (fun r => r.rescueExpression == some "rescueInduced")).length⟩

/-- The `groupby`/`agg` result of `count_joined`: one summary row per
distinct genotype (pandas orders groups by sorted key; group order is not
significant for any property here, so first-occurrence order is used). -/
def count_joined (rows : List JoinedRow) : List SummaryRow :=
  (genotypes rows).map (summaryFor rows)

/-- The whole `count_joined` Python function, control flow included: the
protected block (`to_pandas` conversion plus the grouped aggregation) is
given by its outcome.  On success the function returns from inside the
`try`, so the trailing bare `raise` is never reached; on failure the
`except` block prints and falls through to the bare `raise`, which sits
outside any handler and therefore raises `RuntimeError` in Python 3. -/
def count_joined_run (conv : Except String (List JoinedRow)) :
    Except String (List SummaryRow) :=
  match conv with
  | .ok rows => .ok (count_joined rows)
  | .error _ => .error "RuntimeError: No active exception to re-raise"

/-- Helper: the length of a `(· == g)` filter is the occurrence count. -/
theorem length_filter_beq (l : List String) (g : String) :
    (l.filter (fun x => x == g)).length = l.count g := by
  induction l with
  | nil => rfl
  | cons a l ih => by_cases h : a = g <;> simp [List.count_cons, h, ih]

/-- Claim C4: `count_joined` emits exactly one summary row per genotype
value occurring in the joined table (and none for absent genotypes), and
in every summary row `cryptic_count` is the group size while the two
conditional counts count the matching rows of the group, hence are at
most `cryptic_count`. -/
theorem C4_count_joined_correct (rows : List JoinedRow) (g : String) :
    ((count_joined rows).filter (fun s => s.genotype == g)).length =
      (if rows.any (fun r => r.genotype == some g) then 1 else 0) ∧
    ∀ s ∈ count_joined rows,
      s.cryptic_count =
        (rows.filter (fun r => r.genotype == some s.genotype)).length ∧
      s.TDP34_kd_associated =
        ((rows.filter (fun r => r.genotype == some s.genotype)).filter
          (fun r => r.TDP43_kd == some "siTDP43")).length ∧
      s.rescueInduced =
        ((rows.filter (fun r => r.genotype == some s.genotype)).filter
          (fun r => r.rescueExpression == some "rescueInduced")).length ∧
      s.TDP34_kd_associated ≤ s.cryptic_count ∧
      s.rescueInduced ≤ s.cryptic_count := by
  constructor
  · have hmap : (count_joined rows).filter (fun s => s.genotype == g) =
        ((genotypes rows).filter (fun x => x == g)).map (summaryFor rows) := by
      rw [count_joined, List.filter_map]
      rfl
    rw [hmap, List.length_map, length_filter_beq, genotypes, List.count_dedup]
    have hmem : g ∈ rows.filterMap (fun r => r.genotype) ↔
        rows.any (fun r => r.genotype == some g) = true := by
      simp [List.mem_filterMap, List.any_eq_true]
    by_cases hg : g ∈ rows.filterMap (fun r => r.genotype)
    · rw [if_pos hg, if_pos (hmem.mp hg)]
    · rw [if_neg hg, if_neg (fun hc => hg (hmem.mpr hc))]
  · intro s hs
    simp only [count_joined, List.mem_map] at hs
    obtain ⟨g', _, rfl⟩ := hs
    exact ⟨rfl, rfl, rfl, List.length_filter_le _ _, List.length_filter_le _ _⟩

/-- A one-row joined table used as concrete input by several witnesses:
genotype `KO`, knocked down, rescue induced. -/
def sampleRows : List JoinedRow :=
  [⟨"chr1:100-200", "s1", "novel_donor", some "KO", some "siTDP43",
    some "rescueInduced"⟩]

/-- Witness for C4: on the one-row table, the summary row for `KO` is a
member of the output and its knockdown count is bounded by its group
size. -/
theorem C4_count_joined_correct_witness :
    (⟨"KO", 1, 1, 1⟩ : SummaryRow) ∈ count_joined sampleRows ∧
    (⟨"KO", 1, 1, 1⟩ : SummaryRow).TDP34_kd_associated ≤
      (⟨"KO", 1, 1, 1⟩ : SummaryRow).cryptic_count :=
  ⟨by decide,
    (((C4_count_joined_correct sampleRows "KO").2 ⟨"KO", 1, 1, 1⟩
        (by decide)).2).2.2.1⟩

/-- Counterexample to claim C8 as stated: a call whose protected block
succeeds returns the computed summary table — the trailing bare `raise`
is not reached, because `return counted_df` sits inside the `try`. -/
theorem C8_counterexample :
    ¬ (∀ t, count_joined_run (Except.ok sampleRows) ≠ Except.ok t) := by
  intro h
  exact h (count_joined sampleRows) rfl

/-- Claim C8 as amended: `count_joined` raises only when the protected
conversion/aggregation block fails (and then raises the Python 3
`RuntimeError` of a bare `raise` outside an active handler); when the
block succeeds the computed summary table is returned normally. -/
theorem C8_amended_raise_only_on_failure (rows : List JoinedRow)
    (msg : String) :
    count_joined_run (Except.ok rows) = Except.ok (count_joined rows) ∧
    count_joined_run (Except.error msg) =
      Except.error "RuntimeError: No active exception to re-raise" :=
  ⟨rfl, rfl⟩

/-- The extraction working directory: the names of the files it holds and
whether the directory itself exists. -/
structure FS where
  files : List String
  dirExists : Bool
deriving DecidableEq, Repr

/-- Directory contents after `z.extractall(extract_dir)`: the files already
present plus the archive members (extraction overwrites same-named
files, so names are not duplicated). -/
def dirAfterExtract (pre members : List String) : List String :=
  pre ++ members.filter (fun m => !pre.contains m)

/-- Python's `str.endswith`, as a character-level suffix test (when the
suffix is longer than the string the dropped list keeps its full length
and the comparison fails, as it should). -/
def strEndsWith (s suffx : String) : Bool :=
  s.data.drop (s.data.length - suffx.data.length) == suffx.data

/-- The shard enumeration of `extract_all_parquet_from_zip`:
`[f for f in os.listdir(extract_dir) if f.endswith('.parquet')]`. -/
def listParquet (contents : List String) : List String :=
  contents.filter (fun f => strEndsWith f ".parquet")

/-- `extract_all_parquet_from_zip`: create the directory, extract the
archive (failing if the zip cannot be opened), list the `.parquet` files
of the directory, and fail if that list is empty.  Returns the outcome
together with the directory state left behind. -/
def extract_all_parquet_from_zip (zipOk : Bool) (pre members : List String) :
    Except String (List String) × FS :=
  if !zipOk then (.error "BadZipFile", ⟨pre, true⟩)
  else
    let contents := dirAfterExtract pre members
    let pf := listParquet contents
    (if pf.isEmpty then
        .error "No parquet files found in the extracted directory."
      else .ok pf,
      ⟨contents, true⟩)

/-- `os.remove`: delete the named file, failing if it is absent. -/
def removeFile (fs : FS) (f : String) : Except String FS :=
  if fs.files.contains f then .ok ⟨fs.files.erase f, fs.dirExists⟩
  else .error "FileNotFoundError"

/-- The cleanup loop `for file in parquet_files: os.remove(file)`. -/
def removeAll : FS → List String → Except String FS
  | fs, [] => .ok fs
  | fs, f :: rest =>
    match removeFile fs f with
    | .error e => .error e
    | .ok fs2 => removeAll fs2 rest

/-- `os.rmdir(extract_dir)`: remove the directory, failing unless it
exists and is empty. -/
def rmdir (fs : FS) : Except String FS :=
  if fs.dirExists && fs.files.isEmpty then .ok ⟨fs.files, false⟩
  else .error "OSError: directory not empty or missing"

/-- The whole cleanup block of `process_data`. -/
def cleanup (fs : FS) (shards : List String) : Except String FS :=
  match removeAll fs shards with
  | .error e => .error e
  | .ok fs2 => rmdir fs2

/-- The external outcomes one pipeline run depends on: whether the zip
opens, the archive member names, the files already in the working
directory, the per-shard parquet read, the two CSV reads, and whether
each engine-level column access succeeds (a join key or filter/groupby
column can be missing from the input files, which raises inside the
corresponding stage). -/
structure StageOutcomes where
  zipOk : Bool
  members : List String
  preexisting : List String
  readShard : String → Except String (List MeasurementRow)
  spliceResult : Except String (List SpliceRow)
  metaResult : Except String (List MetadataRow)
  join1Ok : Bool
  join2Ok : Bool
  kdColOk : Bool
  rescueColOk : Bool
  countOk : Bool

/-- `filter_splice` with its CSV read: a failed read aborts, otherwise the
category filter is applied. -/
def filter_splice_run (s : StageOutcomes) : Except String (List SpliceRow) :=
  match s.spliceResult with
  | .error e => .error e
  | .ok rows => .ok (filter_splice rows)

/-- `join_datasets` with its failure points, in source order: the first
join (raising `JoinKeyError` when the key column is unusable), then the
metadata CSV read, then the second join. -/
def join_datasets_run (s : StageOutcomes) (meas : List MeasurementRow)
    (events : List SpliceRow) : Except String (List JoinedRow) :=
  if !s.join1Ok then .error "JoinKeyError: junction_coords"
  else
    match s.metaResult with
    | .error e => .error e
    | .ok md =>
      if !s.join2Ok then .error "JoinKeyError: sample_name"
      else .ok (join_datasets meas events md)

/-- The output files the pipeline writes:
`unfiltered_cryptic_data.csv` (inside `filter_joined`, between the two
filters), and `filtered_data.csv` / `cryptic_summarisation.csv`
(in the script's trailing block, after `process_data` returns). -/
inductive Artifact where
  | unfiltered_cryptic_data
  | filtered_data
  | cryptic_summarisation
deriving DecidableEq, Repr

/-- `filter_joined` with its write: the first filter, then
`pv.write_csv(filtered_df, "unfiltered_cryptic_data.csv")`, then the
second filter.  The returned list records which artifacts were written:
the intermediate CSV is on disk as soon as the first filter succeeds,
even if the second filter then fails. -/
def filter_joined_run (s : StageOutcomes) (joined : List JoinedRow) :
    Except String (List JoinedRow) × List Artifact :=
  if !s.kdColOk then (.error "KeyError: TDP43_kd", [])
  else
    if !s.rescueColOk then
      (.error "KeyError: rescueExpression", [.unfiltered_cryptic_data])
    else (.ok (filter_joined joined), [.unfiltered_cryptic_data])

/-- `process_data`: extract, load, filter the classification CSV, join,
condition-filter (writing the intermediate CSV), aggregate, then clean up
the working directory; the first failing stage aborts the run.  Returns
the outcome, the artifacts written, and the final directory state. -/
def process_data_o (s : StageOutcomes) :
    Except String (List JoinedRow × List SummaryRow) × List Artifact × FS :=
  match extract_all_parquet_from_zip s.zipOk s.preexisting s.members with
  | (.error e, fs) => (.error e, [], fs)
  | (.ok pf, fs) =>
    match load_parquet_files (pf.map s.readShard) with
    | .error e => (.error e, [], fs)
    | .ok meas =>
      match filter_splice_run s with
      | .error e => (.error e, [], fs)
      | .ok events =>
        match join_datasets_run s meas events with
        | .error e => (.error e, [], fs)
        | .ok joined =>
          match filter_joined_run s joined with
          | (.error e, arts) => (.error e, arts, fs)
          | (.ok filtered, arts) =>
            match count_joined_run
                (if s.countOk then .ok joined else .error "KeyError: genotype") with
            | .error e => (.error e, arts, fs)
            | .ok counted =>
              match cleanup fs pf with
              | .error e => (.error e, arts, fs)
              | .ok fs2 => (.ok (filtered, counted), arts, fs2)

/-- The script's trailing block: on success of `process_data`, write
`filtered_data.csv` and `cryptic_summarisation.csv`; on failure, only
report. -/
def script_run (s : StageOutcomes) :
    Except String (List JoinedRow × List SummaryRow) × List Artifact × FS :=
  match process_data_o s with
  | (.error e, arts, fs) => (.error e, arts, fs)
  | (.ok res, arts, fs) =>
    (.ok res, arts ++ [.filtered_data, .cryptic_summarisation], fs)

/-- Helper: a successful `extract_all_parquet_from_zip` means the zip
opened, and identifies the shard list and directory state. -/
theorem extract_ok_flags {zOk : Bool} {pre members pf : List String} {fs : FS}
    (h : extract_all_parquet_from_zip zOk pre members = (Except.ok pf, fs)) :
    zOk = true ∧ pf = listParquet (dirAfterExtract pre members) ∧
      fs = ⟨dirAfterExtract pre members, true⟩ := by
  cases zOk with
  | false => simp [extract_all_parquet_from_zip] at h
  | true =>
    simp only [extract_all_parquet_from_zip, Bool.not_true] at h
    rw [if_neg (by simp)] at h
    split at h
    · simp at h
    · rw [Prod.mk.injEq, Except.ok.injEq] at h
      exact ⟨rfl, h.1.symm, h.2.symm⟩

/-- Helper: a successful cleanup ends with an empty, removed directory. -/
theorem cleanup_ok {fs fs2 : FS} {shards : List String}
    (h : cleanup fs shards = Except.ok fs2) :
    fs2.files = [] ∧ fs2.dirExists = false := by
  unfold cleanup at h
  split at h
  · exact absurd h (by simp)
  · unfold rmdir at h
    split at h
    · rename_i hcond
      rw [Except.ok.injEq] at h
      simp only [Bool.and_eq_true, List.isEmpty_iff] at hcond
      cases h
      exact ⟨hcond.2, rfl⟩
    · exact absurd h (by simp)

/-- Helper: the artifacts recorded by `filter_joined_run` are at most the
intermediate CSV. -/
theorem filter_joined_run_arts (s : StageOutcomes) (joined : List JoinedRow) :
    (filter_joined_run s joined).2 = [] ∨
      (filter_joined_run s joined).2 = [Artifact.unfiltered_cryptic_data] := by
  unfold filter_joined_run
  split
  · exact Or.inl rfl
  · split
    · exact Or.inr rfl
    · exact Or.inr rfl

/-- Helper: a successful `filter_joined_run` means both column accesses
succeeded, the intermediate CSV was written, and the result is the
two-stage filter. -/
theorem filter_joined_run_ok {s : StageOutcomes}
    {joined filtered : List JoinedRow} {arts : List Artifact}
    (h : filter_joined_run s joined = (Except.ok filtered, arts)) :
    s.kdColOk = true ∧ s.rescueColOk = true ∧
      filtered = filter_joined joined ∧
      arts = [Artifact.unfiltered_cryptic_data] := by
  cases hkd : s.kdColOk
  · simp [filter_joined_run, hkd] at h
  · cases hre : s.rescueColOk
    · simp [filter_joined_run, hkd, hre] at h
    · simp only [filter_joined_run, hkd, hre, Bool.not_true] at h
      rw [if_neg (by simp), if_neg (by simp), Prod.mk.injEq,
        Except.ok.injEq] at h
      exact ⟨rfl, rfl, h.1.symm, h.2.symm⟩

/-- Helper: a successful `join_datasets_run` means both joins went through
on a successfully parsed metadata table. -/
theorem join_datasets_run_ok {s : StageOutcomes} {meas : List MeasurementRow}
    {events : List SpliceRow} {joined : List JoinedRow}
    (h : join_datasets_run s meas events = Except.ok joined) :
    s.join1Ok = true ∧ s.join2Ok = true ∧
      ∃ md, s.metaResult = Except.ok md ∧
        joined = join_datasets meas events md := by
  cases h1 : s.join1Ok
  · simp [join_datasets_run, h1] at h
  · cases hmd : s.metaResult with
    | error e => simp [join_datasets_run, h1, hmd] at h
    | ok md =>
      cases h2 : s.join2Ok
      · simp [join_datasets_run, h1, hmd, h2] at h
      · simp [join_datasets_run, h1, hmd, h2] at h
        exact ⟨rfl, rfl, md, rfl, h.symm⟩

/-- Helper: a successful classification stage means the CSV parsed and
the result is the category filter of the parsed rows. -/
theorem filter_splice_run_ok {s : StageOutcomes} {events : List SpliceRow}
    (h : filter_splice_run s = Except.ok events) :
    ∃ x, s.spliceResult = Except.ok x ∧ events = filter_splice x := by
  cases hx : s.spliceResult with
  | error e => simp [filter_splice_run, hx] at h
  | ok x =>
    simp [filter_splice_run, hx] at h
    exact ⟨x, rfl, h.symm⟩

/-- Helper: a successful aggregation stage means the protected block
succeeded and the summary is `count_joined` of the joined table. -/
theorem count_run_ok {s : StageOutcomes} {joined : List JoinedRow}
    {counted : List SummaryRow}
    (h : count_joined_run
        (if s.countOk then .ok joined else .error "KeyError: genotype") =
      Except.ok counted) :
    s.countOk = true ∧ counted = count_joined joined := by
  cases hc : s.countOk
  · simp [hc, count_joined_run] at h
  · simp [hc, count_joined_run] at h
    exact ⟨rfl, h.symm⟩

/-- Helper: whatever happens, a `process_data` run records at most the
intermediate-CSV write (the two final outputs are written by the script
block only after `process_data` returns). -/
theorem process_data_o_arts (s : StageOutcomes) :
    (process_data_o s).2.1 = [] ∨
      (process_data_o s).2.1 = [Artifact.unfiltered_cryptic_data] := by
  unfold process_data_o
  split
  · exact Or.inl rfl
  · split
    · exact Or.inl rfl
    · split
      · exact Or.inl rfl
      · split
        · exact Or.inl rfl
        · rename_i joined hjoin
          split
          · rename_i e arts hfjr
            rcases filter_joined_run_arts s joined with hh | hh <;>
              rw [hfjr] at hh <;> simp at hh <;> simp [hh]
          · rename_i filtered arts hfjr
            obtain ⟨-, -, -, harts⟩ := filter_joined_run_ok hfjr
            subst harts
            split
            · exact Or.inr rfl
            · split
              · exact Or.inr rfl
              · exact Or.inr rfl

/-- Helper: anatomy of a successful `process_data` run — every stage
succeeded, exactly the intermediate CSV was written inside it, and the
working directory ends removed and empty. -/
theorem process_data_o_ok {s : StageOutcomes}
    {res : List JoinedRow × List SummaryRow} {arts : List Artifact} {fs : FS}
    (h : process_data_o s = (Except.ok res, arts, fs)) :
    arts = [Artifact.unfiltered_cryptic_data] ∧
    fs.files = [] ∧ fs.dirExists = false ∧
    s.zipOk = true ∧ s.join1Ok = true ∧ s.join2Ok = true ∧
    s.kdColOk = true ∧ s.rescueColOk = true ∧ s.countOk = true ∧
    (∃ x, s.spliceResult = Except.ok x) ∧
    (∃ x, s.metaResult = Except.ok x) := by
  unfold process_data_o at h
  split at h
  · simp at h
  · rename_i pf fs1 hext
    split at h
    · simp at h
    · rename_i meas hload
      split at h
      · simp at h
      · rename_i events hsplice
        split at h
        · simp at h
        · rename_i joined hjoin
          split at h
          · simp at h
          · rename_i filtered arts1 hfjr
            split at h
            · simp at h
            · rename_i counted hcount
              split at h
              · simp at h
              · rename_i fs2 hclean
                rw [Prod.mk.injEq, Prod.mk.injEq, Except.ok.injEq] at h
                obtain ⟨-, harts, hfs⟩ := h
                obtain ⟨hkd, hre, -, harts1⟩ := filter_joined_run_ok hfjr
                obtain ⟨hfiles, hdir⟩ := cleanup_ok hclean
                obtain ⟨hzip, -, -⟩ := extract_ok_flags hext
                obtain ⟨hj1, hj2, md, hmd, -⟩ := join_datasets_run_ok hjoin
                obtain ⟨hc, -⟩ := count_run_ok hcount
                obtain ⟨x, hxs, -⟩ := filter_splice_run_ok hsplice
                subst harts harts1 hfs
                exact ⟨rfl, hfiles, hdir, hzip, hj1, hj2, hkd, hre, hc,
                  ⟨x, hxs⟩, ⟨md, hmd⟩⟩

/-- A run environment in which every stage succeeds, used as a concrete
input by several witnesses: one shard, one matching `novel_donor` event,
one `KO` knocked-down rescue-induced sample. -/
def okEnv : StageOutcomes :=
  ⟨true, ["shard.parquet"], [],
    fun _ => Except.ok [⟨"chr1:100-200", "s1"⟩],
    Except.ok [⟨"novel_donor", "chr1:100-200"⟩],
    Except.ok [⟨"s1", "KO", "siTDP43", "rescueInduced"⟩],
    true, true, true, true, true⟩

/-- The same environment, except that the aggregation stage's protected
block fails (as happens when the metadata CSV lacks a `genotype` column:
both joins and both condition filters still succeed, then
`groupby('genotype')` raises). -/
def countFailEnv : StageOutcomes :=
  { okEnv with countOk := false }

/-- Counterexample to claim C6 as stated: when the aggregation stage
fails, the run aborts (the error propagates) but the knockdown-only
intermediate CSV has already been written by `filter_joined`, so some
output artifact does exist on a failing run. -/
theorem C6_counterexample :
    (script_run countFailEnv).1 =
      Except.error "RuntimeError: No active exception to re-raise" ∧
    (script_run countFailEnv).2.1 = [Artifact.unfiltered_cryptic_data] :=
  ⟨rfl, rfl⟩

/-- Claim C6 as amended: an aborted run propagates the failure and never
writes the final filtered table or the summary table — but it may already
have written the knockdown-only intermediate CSV, which `filter_joined`
writes as soon as its first filter succeeds; and a run that completes
successfully implies no stage failed (no failure is swallowed), with all
three artifacts written. -/
theorem C6_amended_no_final_writes_on_failure (s : StageOutcomes) :
    (∀ e arts fs, script_run s = (Except.error e, arts, fs) →
        arts = [] ∨ arts = [Artifact.unfiltered_cryptic_data]) ∧
    (∀ res arts fs, script_run s = (Except.ok res, arts, fs) →
        arts = [Artifact.unfiltered_cryptic_data, Artifact.filtered_data,
            Artifact.cryptic_summarisation] ∧
        s.zipOk = true ∧ s.join1Ok = true ∧ s.join2Ok = true ∧
        s.kdColOk = true ∧ s.rescueColOk = true ∧ s.countOk = true ∧
        (∃ x, s.spliceResult = Except.ok x) ∧
        (∃ x, s.metaResult = Except.ok x)) := by
  constructor
  · intro e arts fs h
    unfold script_run at h
    split at h
    · rename_i e' arts' fs' heq
      rw [Prod.mk.injEq, Prod.mk.injEq] at h
      obtain ⟨-, harts, -⟩ := h
      rcases process_data_o_arts s with hh | hh <;> rw [heq] at hh <;>
        simp only at hh <;> rw [harts] at hh
      · exact Or.inl hh
      · exact Or.inr hh
    · simp at h
  · intro res arts fs h
    unfold script_run at h
    split at h
    · simp at h
    · rename_i res' arts' fs' heq
      rw [Prod.mk.injEq, Prod.mk.injEq] at h
      obtain ⟨-, harts, -⟩ := h
      obtain ⟨harts', hrest⟩ := process_data_o_ok heq
      subst harts'
      refine ⟨?_, hrest.2.2⟩
      rw [← harts]
      rfl

/-- Witness for the amended C6 at a concrete input: the all-success run
returns normally, writes all three artifacts, and its aggregation flag is
indeed reported as successful by the theorem. -/
theorem C6_amended_no_final_writes_on_failure_witness :
    script_run okEnv =
      (Except.ok ([⟨"chr1:100-200", "s1", "novel_donor", some "KO",
          some "siTDP43", some "rescueInduced"⟩], [⟨"KO", 1, 1, 1⟩]),
        [Artifact.unfiltered_cryptic_data, Artifact.filtered_data,
          Artifact.cryptic_summarisation], ⟨[], false⟩) ∧
    okEnv.countOk = true :=
  ⟨rfl,
    ((C6_amended_no_final_writes_on_failure okEnv).2
        ([⟨"chr1:100-200", "s1", "novel_donor", some "KO", some "siTDP43",
          some "rescueInduced"⟩], [⟨"KO", 1, 1, 1⟩])
        [Artifact.unfiltered_cryptic_data, Artifact.filtered_data,
          Artifact.cryptic_summarisation] ⟨[], false⟩ rfl).2.2.2.2.2.2.1⟩

/-- Claim C7: whenever `process_data` returns normally, the cleanup block
has removed every extracted shard file and the working directory itself:
the final directory state is gone and holds no files. -/
theorem C7_cleanup_on_success (s : StageOutcomes)
    (res : List JoinedRow × List SummaryRow) (arts : List Artifact) (fs : FS)
    (h : process_data_o s = (Except.ok res, arts, fs)) :
    fs.dirExists = false ∧ fs.files = [] := by
  obtain ⟨-, hfiles, hdir, -⟩ := process_data_o_ok h
  exact ⟨hdir, hfiles⟩

/-- Witness for C7: the all-success run ends with the directory removed
and empty. -/
theorem C7_cleanup_on_success_witness :
    process_data_o okEnv =
      (Except.ok ([⟨"chr1:100-200", "s1", "novel_donor", some "KO",
          some "siTDP43", some "rescueInduced"⟩], [⟨"KO", 1, 1, 1⟩]),
        [Artifact.unfiltered_cryptic_data], ⟨[], false⟩) ∧
    ((⟨[], false⟩ : FS).dirExists = false ∧ (⟨[], false⟩ : FS).files = []) :=
  ⟨rfl,
    C7_cleanup_on_success okEnv
      ([⟨"chr1:100-200", "s1", "novel_donor", some "KO", some "siTDP43",
        some "rescueInduced"⟩], [⟨"KO", 1, 1, 1⟩])
      [Artifact.unfiltered_cryptic_data] ⟨[], false⟩ rfl⟩

/-- Claim C9: if the archive opens and extraction completes but no file
in the working directory ends in `.parquet`, the call raises instead of
returning an empty list. -/
theorem C9_no_shards_error (pre members : List String)
    (h : listParquet (dirAfterExtract pre members) = []) :
    (extract_all_parquet_from_zip true pre members).1 =
      Except.error "No parquet files found in the extracted directory." := by
  simp [extract_all_parquet_from_zip, h]

/-- Witness for C9: an archive holding only a CSV, over an empty
directory, fails. -/
theorem C9_no_shards_error_witness :
    listParquet (dirAfterExtract ["readme.txt"] ["table.csv"]) = [] ∧
    (extract_all_parquet_from_zip true ["readme.txt"] ["table.csv"]).1 =
      Except.error "No parquet files found in the extracted directory." :=
  ⟨rfl, C9_no_shards_error ["readme.txt"] ["table.csv"] rfl⟩

/-- Claim C10: a successful extraction returns exactly the files present
in the directory after extraction whose names end in `.parquet` — so a
`.parquet` file that predated the call is included, and a non-`.parquet`
archive member is excluded even though it was extracted into the
directory. -/
theorem C10_extract_list (pre members pf : List String) (fs : FS)
    (h : extract_all_parquet_from_zip true pre members = (Except.ok pf, fs)) :
    fs.files = dirAfterExtract pre members ∧
    ∀ f, f ∈ pf ↔
      ((f ∈ pre ∨ f ∈ members) ∧ strEndsWith f ".parquet" = true) := by
  obtain ⟨-, hpf, hfs⟩ := extract_ok_flags h
  subst hpf hfs
  refine ⟨rfl, fun f => ?_⟩
  rw [listParquet, List.mem_filter, dirAfterExtract, List.mem_append,
    List.mem_filter]
  constructor
  · rintro ⟨hin, hend⟩
    refine ⟨?_, hend⟩
    rcases hin with hpre | ⟨hm, -⟩
    · exact Or.inl hpre
    · exact Or.inr hm
  · rintro ⟨hin, hend⟩
    refine ⟨?_, hend⟩
    by_cases hpre : f ∈ pre
    · exact Or.inl hpre
    · rcases hin with hp | hm
      · exact absurd hp hpre
      · exact Or.inr ⟨hm, by simp [hpre]⟩

/-- Witness for C10: with `old.parquet` already in the directory and an
archive holding `table.parquet` and `notes.txt`, the returned list is the
pre-existing parquet plus the extracted one — and the theorem confirms
the pre-existing file's membership. -/
theorem C10_extract_list_witness :
    extract_all_parquet_from_zip true ["old.parquet", "keep.txt"]
        ["table.parquet", "notes.txt"] =
      (Except.ok ["old.parquet", "table.parquet"],
        ⟨["old.parquet", "keep.txt", "table.parquet", "notes.txt"], true⟩) ∧
    ("old.parquet" ∈ ["old.parquet", "table.parquet"] ↔
      (("old.parquet" ∈ ["old.parquet", "keep.txt"] ∨
          "old.parquet" ∈ ["table.parquet", "notes.txt"]) ∧
        strEndsWith "old.parquet" ".parquet" = true)) :=
  ⟨rfl,
    (C10_extract_list ["old.parquet", "keep.txt"] ["table.parquet", "notes.txt"]
        ["old.parquet", "table.parquet"]
        ⟨["old.parquet", "keep.txt", "table.parquet", "notes.txt"], true⟩
        rfl).2 "old.parquet"⟩

/-- Claim C2: a classification row survives `filter_splice` iff its
`junc_cat` is exactly one of the three allow-listed categories; all other
rows are dropped (the result may be empty, which is not an error — the
function is total). -/
theorem C2_filter_splice_mem (rows : List SpliceRow) (r : SpliceRow) :
    r ∈ filter_splice rows ↔ r ∈ rows ∧ r.junc_cat ∈ options := by
  simp [filter_splice, List.mem_filter]

/-- Witness for C2 at a concrete input: the `novel_donor` row is kept. -/
theorem C2_filter_splice_mem_witness :
    (⟨"novel_donor", "j1"⟩ : SpliceRow) ∈
      filter_splice [⟨"novel_donor", "j1"⟩, ⟨"intron_retention", "j2"⟩] :=
  (C2_filter_splice_mem
      [⟨"novel_donor", "j1"⟩, ⟨"intron_retention", "j2"⟩]
      ⟨"novel_donor", "j1"⟩).mpr ⟨by decide, by decide⟩

/-- Claim C5: the two sequential condition filters of `filter_joined`
return exactly the same rows as the single-pass conjunction filter. -/
theorem C5_filter_joined_eq_filterBoth (rows : List JoinedRow) :
    filter_joined rows = filterBoth rows := by
  induction rows with
  | nil => rfl
  | cons r rest ih =>
    by_cases h1 : r.TDP43_kd = some "siTDP43" <;>
      by_cases h2 : r.rescueExpression = some "rescueInduced" <;>
        simp [filter_joined, filterKd, filterRescue, filterBoth, h1, h2] at ih ⊢ <;>
          simpa [filter_joined, filterKd, filterRescue, filterBoth] using ih
